import Mathlib

/-!
Verification development for the Resnet18Cloud repository.

Shallow embedding of the two core components:
* src/dispatcher/dispatcher.py — the ImageCache LRU cache, the Dispatcher
  (bounded request queue, request ledger, metric counters) and its
  get_status snapshot,
* src/autoscaler/autoscaler.py — the PredictiveLatencyAutoscaler decision
  functions and the main control loop.

Modelling conventions, faithful to the Python source:
* Python floats are modelled by exact rationals (ℚ); wall-clock readings
  (time.time(), datetime.now()) are explicit ℚ parameters.
* Image payload bytes are modelled by ℕ; the blake2b content digest is
  modelled by the payload itself (the digest is collision-resistant, so
  distinct payloads have distinct digests for the cache's purposes).
* Python dicts keyed by strings are modelled either as structures with one
  field per key or, where the code performs dynamic key lookups that can
  fail (the autoscaler reading the dispatcher's JSON), as association
  lists over an inductive key type, with lookup returning Option.
* uuid4 request-id generation is modelled by a fresh-counter field.
* Network I/O (the HTTP fetch of /status, the call to the prediction
  backend, the Kubernetes API) is modelled by passing the response as an
  explicit parameter at the function that performs the call.
-/

/-- Lookup in an association list modelling a Python dict (keys unique). -/
def dictLookup {α β : Type} [DecidableEq α] (k : α) : List (α × β) → Option β
  | [] => none
  | (a, b) :: rest => if a = k then some b else dictLookup k rest

/-- Update-in-place of a Python dict entry: the value at key `k` is replaced,
all other entries and the insertion order are unchanged (OrderedDict and
plain dict `__setitem__` semantics for an existing key). -/
def dictUpdate {α β : Type} [DecidableEq α] (k : α) (f : β → β) :
    List (α × β) → List (α × β) :=
  List.map (fun p => if p.1 = k then (p.1, f p.2) else p)

/-- Python's round-half-to-even on an exact rational, returning an integer. -/
def roundHalfEven (q : ℚ) : ℤ :=
  let f := ⌊q⌋
  let r := q - f
  if r < 1/2 then f
  else if r > 1/2 then f + 1
  else if f % 2 = 0 then f else f + 1

/-- Python's `round(q, n)` (banker's rounding to `n` decimal places),
idealised to exact rational arithmetic. -/
def pyRound (q : ℚ) (n : ℕ) : ℚ :=
  (roundHalfEven (q * 10 ^ n) : ℚ) / 10 ^ n

/-- Python's `max` over a list; the source only applies it to nonempty
lists of non-negative values, where the `0` default never matters. -/
def listMax : List ℚ → ℚ
  | [] => 0
  | x :: xs => xs.foldl max x

/-! ## ImageCache (src/dispatcher/dispatcher.py, class ImageCache)

The OrderedDict backing store is modelled as an association list whose
front is the least-recently-used end (`popitem(last=False)` pops the
front) and whose back is the most-recently-used end (fresh insertions
append). -/

/-- Image payload bytes; the blake2b digest used as the cache key is
modelled by the payload itself (collision-resistance idealised). -/
abbrev ImageHash := ℕ

/-- The dict value stored by `ImageCache.put`:
`{'result': ..., 'cached_at': ..., 'image_hash': ...}`. -/
structure CacheEntry where
  result : ℕ
  cached_at : ℚ
  image_hash : ImageHash
deriving DecidableEq, Repr

/-- State of `ImageCache`: the ordered backing store plus hit/miss
counters, mirroring `__init__`. -/
structure ImageCache where
  max_size : ℕ
  cache : List (ImageHash × CacheEntry)
  hits : ℕ
  misses : ℕ
deriving DecidableEq, Repr

/-- An empty `ImageCache` with the given `max_size` (the constructor). -/
def emptyCache (max_size : ℕ) : ImageCache :=
  { max_size := max_size, cache := [], hits := 0, misses := 0 }

/-- The `while len(self.cache) >= self.max_size:` eviction loop of
`ImageCache.put`: repeatedly pop the least-recently-used (front) entry
while the store is at or above capacity. (For `max_size = 0` the Python
loop would raise on the emptied dict; the dispatcher always constructs
the cache with `max_size = 1000`.) -/
def evictOldest (max_size : ℕ) : List (ImageHash × CacheEntry) → List (ImageHash × CacheEntry)
  | [] => []
  | x :: xs => if max_size ≤ (x :: xs).length then evictOldest max_size xs else x :: xs

/-- `ImageCache.get`: on a hit, pop the entry and re-insert it at the
most-recently-used end and bump `hits`; on a miss bump `misses`.
Returns the (optional) entry together with the updated cache state. -/
def ImageCache.get (c : ImageCache) (image_data : ImageHash) :
    Option CacheEntry × ImageCache :=
  match dictLookup image_data c.cache with
  | some result =>
      (some result,
       { c with
         cache := (c.cache.filter (fun p => p.1 ≠ image_data)) ++ [(image_data, result)],
         hits := c.hits + 1 })
  | none => (none, { c with misses := c.misses + 1 })

/-- `ImageCache.put`: first run the eviction loop while at or above
capacity, then `self.cache[image_hash] = {...}` — which for a key that is
still present after eviction overwrites the value in place (OrderedDict
assignment does not move an existing key), and for an absent key appends
at the most-recently-used end. -/
def ImageCache.put (c : ImageCache) (image_data : ImageHash) (result : ℕ) (now : ℚ) :
    ImageCache :=
  let evicted := evictOldest c.max_size c.cache
  let entry : CacheEntry := { result := result, cached_at := now, image_hash := image_data }
  match dictLookup image_data evicted with
  | some _ => { c with cache := dictUpdate image_data (fun _ => entry) evicted }
  | none => { c with cache := evicted ++ [(image_data, entry)] }

/-- The dict returned by `ImageCache.get_stats`. -/
structure CacheStats where
  size : ℕ
  max_size : ℕ
  hits : ℕ
  misses : ℕ
  hit_rate : ℚ
  utilization : ℚ
deriving DecidableEq, Repr

/-- `ImageCache.get_stats`: hit rate over all lookups (0 when there were
none), utilization as a percentage of capacity, both rounded to two
decimal places as in the source. -/
def ImageCache.get_stats (c : ImageCache) : CacheStats :=
  let total_requests := c.hits + c.misses
  let hit_rate : ℚ := if total_requests > 0 then (c.hits : ℚ) / total_requests * 100 else 0
  { size := c.cache.length
    max_size := c.max_size
    hits := c.hits
    misses := c.misses
    hit_rate := pyRound hit_rate 2
    utilization := pyRound ((c.cache.length : ℚ) / c.max_size * 100) 2 }

/-! ## Dispatcher (src/dispatcher/dispatcher.py, class Dispatcher) -/

/-- The `status` field of a ledger entry (`self.results[request_id]`). -/
inductive ReqStatus
  | queued
  | processing
  | completed
  | failed
deriving DecidableEq, Repr

/-- The error recorded on a failed request: the queue-full capacity error
(`'Queue is full'`), a non-2xx backend response (`f"HTTP {status}: ..."`),
or a transport exception from `requests.post`. -/
inductive ReqError
  | queueFull
  | http (code : ℕ)
  | transport
deriving DecidableEq, Repr

/-- A ledger entry in `self.results`, carrying the union of the fields the
source writes on the various paths (absent dict keys are `none`). -/
structure RequestRecord where
  status : ReqStatus
  filename : ℕ
  from_cache : Bool
  queued_at : ℚ
  completed_at : Option ℚ
  result : Option ℕ
  error : Option ReqError
  processing_time : Option ℚ
  cached_at : Option ℚ
deriving DecidableEq, Repr

/-- An element of `self.request_queue`: the dict built in `queue_request`
(`image_data` there is the pair `(filename, bytes)`; we keep the two
components as separate fields). -/
structure QueueItem where
  request_id : ℕ
  filename : ℕ
  image_data : ImageHash
  timestamp : ℚ
deriving DecidableEq, Repr

/-- `queue.Queue(maxsize=200)` — the bound of the request queue. -/
def queueMaxsize : ℕ := 200

/-- The mutable state of `Dispatcher.__init__`. `next_request_id` models
`uuid.uuid4()` as a fresh counter; `request_queue` holds its front at the
head (FIFO). `start_time` is the `time.time()` recorded at construction. -/
structure Dispatcher where
  cache : ImageCache
  request_queue : List QueueItem
  results : List (ℕ × RequestRecord)
  total_requests : ℕ
  cache_hits : ℕ
  successful_requests : ℕ
  failed_requests : ℕ
  queue_full_errors : ℕ
  start_time : ℚ
  peak_queue_size : ℕ
  total_processing_time : ℚ
  total_queue_time : ℚ
  last_request_time : Option ℚ
  queue_capacity : ℕ
  next_request_id : ℕ
deriving DecidableEq, Repr

/-- The dispatcher as constructed by `Dispatcher.__init__` (cache of
capacity 1000, queue capacity 200, all counters zero; `start_time` is
taken as the time origin 0). -/
def initDispatcher : Dispatcher :=
  { cache := emptyCache 1000
    request_queue := []
    results := []
    total_requests := 0
    cache_hits := 0
    successful_requests := 0
    failed_requests := 0
    queue_full_errors := 0
    start_time := 0
    peak_queue_size := 0
    total_processing_time := 0
    total_queue_time := 0
    last_request_time := none
    queue_capacity := 200
    next_request_id := 0 }

/-- `Dispatcher.queue_request(image_data, filename)` at wall-clock `now`:
bump `total_requests`, draw a fresh request id, check the cache; on a hit
record a completed cache-served ledger entry; on a miss record a queued
ledger entry, update `peak_queue_size` and `last_request_time`, then
attempt the non-blocking bounded push — `queue.Full` (raised exactly when
the queue already holds `queueMaxsize` items) marks the entry failed with
the queue-full error and bumps `failed_requests` only.  Returns the
request id together with the updated state. -/
def Dispatcher.queue_request (d : Dispatcher) (image_data filename : ℕ) (now : ℚ) :
    ℕ × Dispatcher :=
  let d := { d with total_requests := d.total_requests + 1 }
  let request_id := d.next_request_id
  let d := { d with next_request_id := d.next_request_id + 1 }
  let cached := d.cache.get image_data
  let d := { d with cache := cached.2 }
  match cached.1 with
  | some entry =>
      let record : RequestRecord :=
        { status := .completed
          filename := filename
          from_cache := true
          queued_at := now
          completed_at := some now
          result := some entry.result
          error := none
          processing_time := some (1/1000)
          cached_at := some entry.cached_at }
      (request_id,
       { d with
         cache_hits := d.cache_hits + 1
         successful_requests := d.successful_requests + 1
         results := d.results ++ [(request_id, record)] })
  | none =>
      let item : QueueItem :=
        { request_id := request_id, filename := filename
          image_data := image_data, timestamp := now }
      let record : RequestRecord :=
        { status := .queued
          filename := filename
          from_cache := false
          queued_at := now
          completed_at := none
          result := none
          error := none
          processing_time := none
          cached_at := none }
      let d := { d with results := d.results ++ [(request_id, record)] }
      let current_size := d.request_queue.length
      let d := { d with
                 peak_queue_size := max d.peak_queue_size current_size
                 last_request_time := some now }
      if d.request_queue.length < queueMaxsize then
        (request_id, { d with request_queue := d.request_queue ++ [item] })
      else
        (request_id,
         { d with
           failed_requests := d.failed_requests + 1
           results := dictUpdate request_id
             (fun r => { r with
                         status := .failed
                         error := some ReqError.queueFull
                         completed_at := some now }) d.results })

/-- Outcome of the worker's `requests.post` to the prediction backend:
an HTTP 200 with a JSON result, a non-200 status code, or a raised
transport exception. -/
inductive BackendResponse
  | ok (result_data : ℕ)
  | httpError (code : ℕ)
  | transport
deriving DecidableEq, Repr

/-- `Dispatcher._forward_request(request_data)`: mark the entry processing,
accumulate the queue residence time (`deq_time` is the `time.time()` at
the start of the call), then — according to the backend response — on 200
accumulate the processing time `pt`, bump the success counter, store the
result in the cache and complete the entry; on a non-200 accumulate `pt`
and fail the entry; on a transport exception (raised inside
`requests.post`, before `processing_time` is computed) fail the entry
without touching `total_processing_time`.  `fin_time` is the
`datetime.now()` of the completion timestamps. -/
def Dispatcher.forward_request (d : Dispatcher) (item : QueueItem)
    (resp : BackendResponse) (deq_time pt fin_time : ℚ) : Dispatcher :=
  let d := { d with
             results := dictUpdate item.request_id
               (fun r => { r with status := .processing }) d.results }
  let queue_time := deq_time - item.timestamp
  let d := { d with total_queue_time := d.total_queue_time + queue_time }
  match resp with
  | .ok result_data =>
      let d := { d with
                 total_processing_time := d.total_processing_time + pt
                 successful_requests := d.successful_requests + 1 }
      let d := { d with cache := d.cache.put item.image_data result_data fin_time }
      { d with
        results := dictUpdate item.request_id
          (fun r => { r with
                      status := .completed
                      result := some result_data
                      processing_time := some pt
                      completed_at := some fin_time
                      from_cache := false }) d.results }
  | .httpError code =>
      { d with
        total_processing_time := d.total_processing_time + pt
        failed_requests := d.failed_requests + 1
        results := dictUpdate item.request_id
          (fun r => { r with
                      status := .failed
                      error := some (ReqError.http code)
                      completed_at := some fin_time }) d.results }
  | .transport =>
      { d with
        failed_requests := d.failed_requests + 1
        results := dictUpdate item.request_id
          (fun r => { r with
                      status := .failed
                      error := some ReqError.transport
                      completed_at := some fin_time }) d.results }

/-- One round of the `_process_queue` worker loop: take the next queued
item if there is one (a `queue.Empty` timeout leaves the state unchanged)
and forward it to the backend. -/
def Dispatcher.worker_step (d : Dispatcher) (resp : BackendResponse)
    (deq_time pt fin_time : ℚ) : Dispatcher :=
  match d.request_queue with
  | [] => d
  | item :: rest =>
      Dispatcher.forward_request { d with request_queue := rest } item resp deq_time pt fin_time

/-- An externally observable event acting on the dispatcher: a client
submission (`queue_request`) or one worker round. -/
inductive Event
  | submit (image_data filename : ℕ) (now : ℚ)
  | work (resp : BackendResponse) (deq_time pt fin_time : ℚ)
deriving DecidableEq, Repr

/-- Apply one event to the dispatcher state. -/
def Dispatcher.step (d : Dispatcher) : Event → Dispatcher
  | .submit image_data filename now => (d.queue_request image_data filename now).2
  | .work resp deq_time pt fin_time => d.worker_step resp deq_time pt fin_time

/-- Run a sequence of events from a dispatcher state. -/
def Dispatcher.run (d : Dispatcher) (evs : List Event) : Dispatcher :=
  evs.foldl Dispatcher.step d

/-- Number of submissions (`queue_request` calls) in an event sequence. -/
def submitCount : List Event → ℕ
  | [] => 0
  | .submit _ _ _ :: rest => submitCount rest + 1
  | .work _ _ _ _ :: rest => submitCount rest

/-- Number of submissions in an event sequence whose payload misses the
cache at the moment of submission (these include both the successfully
enqueued ones and the queue-full rejections). -/
def nonCachedSubmitCount (d : Dispatcher) : List Event → ℕ
  | [] => 0
  | ev :: rest =>
      (match ev with
       | .submit image_data _ _ =>
           if (dictLookup image_data d.cache.cache).isSome then 0 else 1
       | .work _ _ _ _ => 0) + nonCachedSubmitCount (d.step ev) rest

/-! ## Dispatcher.get_status — the metrics snapshot -/

/-- The `performance_metrics` sub-dict of the status snapshot. -/
structure PerformanceMetrics where
  avg_processing_time : ℚ
  avg_queue_time : ℚ
  throughput : ℚ
deriving DecidableEq, Repr

/-- The `queue_metrics` sub-dict of the status snapshot (note: it has no
`queue_size` key — that lives at the top level of the snapshot). -/
structure QueueMetrics where
  peak_queue_size : ℕ
  queue_capacity : ℕ
  queue_utilization : ℚ
deriving DecidableEq, Repr

/-- The `health_metrics` sub-dict of the status snapshot.
`processing_errors` is the Python int `failed_requests - queue_full_errors`
(modelled in ℤ, as Python ints are signed). -/
structure HealthMetrics where
  error_rate : ℚ
  processing_error_rate : ℚ
  queue_full_errors : ℕ
  processing_errors : ℤ
  uptime : ℚ
  last_request_timestamp : Option ℚ
deriving DecidableEq, Repr

/-- The `cache_metrics` sub-dict: `{"cache_hit_rate": ..., **cache_stats}`. -/
structure CacheMetrics where
  cache_hit_rate : ℚ
  stats : CacheStats
deriving DecidableEq, Repr

/-- The dict returned by `Dispatcher.get_status` (the `endpoint_url`
string field is omitted; no claim concerns it). `queued_requests` is the
Python int `total_requests - cache_stats['hits']`, modelled in ℤ. -/
structure Status where
  queue_size : ℕ
  total_requests : ℕ
  successful_requests : ℕ
  failed_requests : ℕ
  queued_requests : ℤ
  stored_results : ℕ
  performance_metrics : PerformanceMetrics
  queue_metrics : QueueMetrics
  health_metrics : HealthMetrics
  cache_metrics : CacheMetrics
deriving DecidableEq, Repr

/-- `Dispatcher.get_status` at wall-clock `now`: the derived metrics with
their division-by-zero guards and the roundings of the source. -/
def Dispatcher.get_status (d : Dispatcher) (now : ℚ) : Status :=
  let uptime := now - d.start_time
  let cache_stats := d.cache.get_stats
  let queued_requests : ℤ := (d.total_requests : ℤ) - (cache_stats.hits : ℤ)
  let processing_errors : ℤ := (d.failed_requests : ℤ) - (d.queue_full_errors : ℤ)
  let avg_processing_time : ℚ :=
    if d.successful_requests > 0
    then d.total_processing_time / (d.successful_requests : ℚ) else 0
  let avg_queue_time : ℚ :=
    if queued_requests > 0 then d.total_queue_time / (queued_requests : ℚ) else 0
  let error_rate : ℚ :=
    if d.total_requests > 0
    then (d.failed_requests : ℚ) / (d.total_requests : ℚ) * 100 else 0
  let processing_error_rate : ℚ :=
    if queued_requests > 0
    then (processing_errors : ℚ) / (queued_requests : ℚ) * 100 else 0
  let throughput : ℚ := if uptime > 0 then (d.successful_requests : ℚ) / uptime else 0
  { queue_size := d.request_queue.length
    total_requests := d.total_requests
    successful_requests := d.successful_requests
    failed_requests := d.failed_requests
    queued_requests := queued_requests
    stored_results := d.results.length
    performance_metrics :=
      { avg_processing_time := pyRound avg_processing_time 3
        avg_queue_time := pyRound avg_queue_time 3
        throughput := pyRound throughput 2 }
    queue_metrics :=
      { peak_queue_size := d.peak_queue_size
        queue_capacity := d.queue_capacity
        queue_utilization :=
          pyRound ((d.request_queue.length : ℚ) / (d.queue_capacity : ℚ) * 100) 2 }
    health_metrics :=
      { error_rate := pyRound error_rate 2
        processing_error_rate := pyRound processing_error_rate 2
        queue_full_errors := d.queue_full_errors
        processing_errors := processing_errors
        uptime := pyRound uptime 2
        last_request_timestamp := d.last_request_time }
    cache_metrics :=
      { cache_hit_rate := cache_stats.hit_rate
        stats := cache_stats } }

/-! ## Autoscaler (src/autoscaler/autoscaler.py, class PredictiveLatencyAutoscaler)

The autoscaler receives the status snapshot as parsed JSON and accesses
it by dynamic key lookup; we therefore give the numeric sub-dicts of the
snapshot an association-list view over an inductive key type, so a lookup
of a key the dispatcher does not emit is observable as a failure, exactly
as `dict[...]` raising `KeyError` is. -/

/-- The JSON keys the autoscaler looks up in the snapshot's sub-dicts,
together with the keys those sub-dicts actually carry. -/
inductive MetricKey
  | queue_size
  | queue_utilization
  | peak_queue_size
  | queue_capacity
  | avg_processing_time
  | avg_queue_time
  | throughput
  | request_rate
  | error_rate
  | processing_error_rate
  | queue_full_errors
  | processing_errors
  | uptime
deriving DecidableEq, Repr

/-- The `performance_metrics` sub-dict as the key-value mapping the JSON
serialisation carries. -/
def PerformanceMetrics.toDict (p : PerformanceMetrics) : List (MetricKey × ℚ) :=
  [(MetricKey.avg_processing_time, p.avg_processing_time),
   (MetricKey.avg_queue_time, p.avg_queue_time),
   (MetricKey.throughput, p.throughput)]

/-- The `queue_metrics` sub-dict as the key-value mapping the JSON
serialisation carries. -/
def QueueMetrics.toDict (q : QueueMetrics) : List (MetricKey × ℚ) :=
  [(MetricKey.peak_queue_size, (q.peak_queue_size : ℚ)),
   (MetricKey.queue_capacity, (q.queue_capacity : ℚ)),
   (MetricKey.queue_utilization, q.queue_utilization)]

/-- The numeric entries of the `health_metrics` sub-dict as the key-value
mapping the JSON serialisation carries (the possibly-null
`last_request_timestamp` is omitted from this numeric view; the
autoscaler never reads it). -/
def HealthMetrics.toDict (h : HealthMetrics) : List (MetricKey × ℚ) :=
  [(MetricKey.error_rate, h.error_rate),
   (MetricKey.processing_error_rate, h.processing_error_rate),
   (MetricKey.queue_full_errors, (h.queue_full_errors : ℚ)),
   (MetricKey.processing_errors, (h.processing_errors : ℚ)),
   (MetricKey.uptime, h.uptime)]

/-- A Python `dict[key]` access: the value, or a raised `KeyError`
carrying the missing key. -/
def dictGet (l : List (MetricKey × ℚ)) (k : MetricKey) : Except MetricKey ℚ :=
  match dictLookup k l with
  | some v => Except.ok v
  | none => Except.error k

namespace Autoscaler

/-- `self.min_replicas` from `__init__`. -/
def min_replicas : ℕ := 3

/-- `self.max_replicas` from `__init__`. -/
def max_replicas : ℕ := 100

/-- `self.target_latency = 0.4`. -/
def target_latency : ℚ := 4/10

/-- `self.max_acceptable_latency = 0.5`. -/
def max_acceptable_latency : ℚ := 1/2

/-- `self.max_safe_queue_length = 10`. -/
def max_safe_queue_length : ℚ := 10

/-- `self.pod_startup_time = 30` (seconds). -/
def pod_startup_time : ℕ := 30

/-- `self.check_interval = 5` (seconds between polls). -/
def check_interval : ℕ := 5

/-- `self.min_scale_step = 2`. -/
def min_scale_step : ℕ := 2

/-- The dict returned by `_calculate_enhanced_metrics`. -/
structure EnhancedMetrics where
  queue_size : ℚ
  queue_utilization : ℚ
  avg_processing_time : ℚ
  request_rate : ℚ
  queue_wait_time : ℚ
  estimated_total_latency : ℚ
  latency_pressure : ℚ
  queue_pressure : ℚ
  emergency_threshold : Bool
  error_rate : ℚ
deriving DecidableEq, Repr

/-- `_calculate_enhanced_metrics(raw_metrics)`: read the raw snapshot by
dynamic key lookup (`raw_metrics['queue_metrics']['queue_size']`,
`raw_metrics['queue_metrics']['queue_utilization']`,
`raw_metrics['performance_metrics']['avg_processing_time']`,
`raw_metrics['performance_metrics'].get('request_rate', 0)`,
`raw_metrics['health_metrics']['error_rate']`), then derive the
Little's-Law quantities.  A lookup of a missing key is the raised
`KeyError` (propagated as `Except.error`), exactly as in Python; the
`.get` for `request_rate` defaults to 0 instead of failing. -/
def calculate_enhanced_metrics (raw_metrics : Status) : Except MetricKey EnhancedMetrics := do
  let queue_size ← dictGet raw_metrics.queue_metrics.toDict MetricKey.queue_size
  let queue_utilization ← dictGet raw_metrics.queue_metrics.toDict MetricKey.queue_utilization
  let avg_processing_time ←
    dictGet raw_metrics.performance_metrics.toDict MetricKey.avg_processing_time
  let request_rate :=
    (dictLookup MetricKey.request_rate raw_metrics.performance_metrics.toDict).getD 0
  let error_rate ← dictGet raw_metrics.health_metrics.toDict MetricKey.error_rate
  let qvals : ℚ × ℚ × ℚ :=
    if request_rate > 0 then
      (queue_size / request_rate,
       queue_size / request_rate + avg_processing_time,
       queue_size / max_safe_queue_length)
    else
      (0, avg_processing_time, 0)
  let queue_wait_time := qvals.1
  let estimated_total_latency := qvals.2.1
  let queue_pressure := qvals.2.2
  let latency_pressure := estimated_total_latency / target_latency
  let emergency_threshold := decide (estimated_total_latency > max_acceptable_latency)
  return { queue_size := queue_size
           queue_utilization := queue_utilization
           avg_processing_time := avg_processing_time
           request_rate := request_rate
           queue_wait_time := queue_wait_time
           estimated_total_latency := estimated_total_latency
           latency_pressure := latency_pressure
           queue_pressure := queue_pressure
           emergency_threshold := emergency_threshold
           error_rate := error_rate }

/-- The decision reason returned by `calculate_optimal_replicas`
(the source returns descriptive strings; we keep the tag). -/
inductive ScaleReason
  | emergency
  | little_law_optimization
  | predictive_scaling
  | reactive_scaling
  | safe_scale_down
  | mixed_signals
deriving DecidableEq, Repr

/-- `calculate_required_replicas_little_law(metrics, current_replicas)`.
The source reads `metrics['request_rate']` and
`metrics['avg_processing_time']`; those two values are the parameters
here.  The result is `int(math.ceil(required_processing_capacity * 1.2))`
clamped into `[min_replicas, max_replicas]` — except on the
`request_rate == 0` early return, which yields
`max(min_replicas, current_replicas)` with no upper clamp. -/
def calculate_required_replicas_little_law
    (request_rate avg_processing_time : ℚ) (current_replicas : ℕ) : ℕ :=
  if request_rate = 0 then max min_replicas current_replicas
  else
    let max_acceptable_queue_time := max 0 (target_latency - avg_processing_time)
    let required_processing_capacity : ℚ :=
      if max_acceptable_queue_time ≤ 0 then
        request_rate / (target_latency * (8/10))
      else
        let service_rate_per_replica : ℚ :=
          if avg_processing_time > 0 then 1 / avg_processing_time else 1
        let required_service_rate :=
          request_rate + request_rate * max_acceptable_queue_time
        required_service_rate / service_rate_per_replica
    let safety_buffer : ℚ := 12/10
    let required_replicas : ℤ := ⌈required_processing_capacity * safety_buffer⌉
    (max (min_replicas : ℤ) (min (max_replicas : ℤ) required_replicas)).toNat

/-- `calculate_predictive_replicas(current_replicas)`.  The call to
`predict_future_load` — which depends on the wall clock
(`datetime.now()` seasonal adjustment) and the accumulated
`metrics_history` — is abstracted as the `prediction` parameter: `none`
when fewer than 10 history samples exist, otherwise the pair of
predicted rate and latency series (each of length `prediction_horizon`).
With `pod_startup_time // (check_interval * 60) = 30 // 300 = 0` the
startup window is always reset to a single step. -/
def calculate_predictive_replicas
    (prediction : Option (List ℚ × List ℚ)) (current_replicas : ℕ) : ℕ :=
  match prediction with
  | none => current_replicas
  | some (predicted_rates, predicted_latencies) =>
      let startup_steps := min predicted_rates.length (pod_startup_time / (check_interval * 60))
      let startup_steps := if startup_steps = 0 then 1 else startup_steps
      let max_predicted_rate := listMax (predicted_rates.take startup_steps)
      let max_predicted_latency := listMax (predicted_latencies.take startup_steps)
      if max_predicted_latency > target_latency ∨ max_predicted_rate > 0 then
        calculate_required_replicas_little_law
          max_predicted_rate (max_predicted_latency * (8/10)) current_replicas
      else current_replicas

/-- The reactive-signal candidate of `calculate_optimal_replicas`:
starts at `current_replicas` (`reactive_replicas = current_replicas`) and
is only ever raised by the three advisory proposals
(`int(current * 1.5)` on latency pressure > 1.2, `current + min_scale_step`
on queue pressure > 0.7 or error rate > 5). -/
def reactive_replicas (metrics : EnhancedMetrics) (current_replicas : ℕ) : ℕ :=
  let r := current_replicas
  let r := if metrics.latency_pressure > 12/10
           then max r (3 * current_replicas / 2) else r
  let r := if metrics.queue_pressure > 7/10
           then max r (current_replicas + min_scale_step) else r
  if metrics.error_rate > 5 then max r (current_replicas + min_scale_step) else r

/-- The maximum over the Little's-Law, predictive and reactive candidates
(`max_replicas = max(little_law_replicas, predictive_replicas,
reactive_replicas)` — a local variable shadowing the configuration bound
of the same name). -/
def candidate_max (metrics : EnhancedMetrics)
    (prediction : Option (List ℚ × List ℚ)) (current_replicas : ℕ) : ℕ :=
  max (calculate_required_replicas_little_law
        metrics.request_rate metrics.avg_processing_time current_replicas)
    (max (calculate_predictive_replicas prediction current_replicas)
      (reactive_replicas metrics current_replicas))

/-- `calculate_optimal_replicas(metrics, current_replicas)`: emergency
short-circuit, then the three candidate methods reconciled by `max`, the
conservative scale-down branch, and the tie-break order for the reason. -/
def calculate_optimal_replicas (metrics : EnhancedMetrics)
    (prediction : Option (List ℚ × List ℚ)) (current_replicas : ℕ) :
    ℕ × ScaleReason :=
  if metrics.emergency_threshold then
    (min (2 * current_replicas) max_replicas, ScaleReason.emergency)
  else
    let little_law_replicas :=
      calculate_required_replicas_little_law
        metrics.request_rate metrics.avg_processing_time current_replicas
    let predictive_replicas := calculate_predictive_replicas prediction current_replicas
    let max_replicas := candidate_max metrics prediction current_replicas
    if max_replicas < current_replicas then
      if metrics.latency_pressure < 1/2 ∧ metrics.queue_pressure < 3/10 ∧
         metrics.error_rate < 1 then
        (max (current_replicas - min_scale_step) min_replicas, ScaleReason.safe_scale_down)
      else
        (current_replicas, ScaleReason.mixed_signals)
    else
      if max_replicas = little_law_replicas then
        (max_replicas, ScaleReason.little_law_optimization)
      else if max_replicas = predictive_replicas then
        (max_replicas, ScaleReason.predictive_scaling)
      else
        (max_replicas, ScaleReason.reactive_scaling)

/-- The replica count decided by `calculate_optimal_replicas`. -/
def desired_replicas (metrics : EnhancedMetrics)
    (prediction : Option (List ℚ × List ℚ)) (current_replicas : ℕ) : ℕ :=
  (calculate_optimal_replicas metrics prediction current_replicas).1

/-- One iteration of the `run` loop, at the decision-and-apply stage: if
fetching metrics or reading the replica count failed (`none`) the
iteration is skipped; otherwise the optimal count is computed and —
with no cooldown check of any kind — applied immediately whenever it
differs from the current count.  Returns the replica count after the
iteration and whether a scaling action was executed (the Kubernetes
patch is taken to succeed; on failure the source merely logs). -/
def run_iteration (fetched : Option EnhancedMetrics)
    (prediction : Option (List ℚ × List ℚ)) (current : ℕ) : ℕ × Bool :=
  match fetched with
  | none => (current, false)
  | some metrics =>
      let desired := desired_replicas metrics prediction current
      if desired ≠ current then (desired, true) else (current, false)

/-- A run of consecutive polling iterations (one per `check_interval`
seconds): each list element is the fetched metrics and the prediction
oracle for that poll.  Returns the final replica count and the number of
scaling actions executed. -/
def run_trace (current : ℕ) :
    List (Option EnhancedMetrics × Option (List ℚ × List ℚ)) → ℕ × ℕ
  | [] => (current, 0)
  | (fetched, prediction) :: rest =>
      let (next, acted) := run_iteration fetched prediction current
      let (final, n) := run_trace next rest
      (final, n + (if acted then 1 else 0))

end Autoscaler

/-! ## Concrete inputs used by the counterexamples and witnesses -/

/-- Enhanced metrics as `_calculate_enhanced_metrics` would derive them
from a snapshot with `request_rate = 0` and
`avg_processing_time = 0.49`: estimated latency 0.49 is under the 0.5
emergency ceiling but the latency pressure 0.49/0.4 = 1.225 exceeds the
1.2 reactive threshold. -/
def m0 : Autoscaler.EnhancedMetrics :=
  { queue_size := 0
    queue_utilization := 0
    avg_processing_time := 49/100
    request_rate := 0
    queue_wait_time := 0
    estimated_total_latency := 49/100
    latency_pressure := 49/40
    queue_pressure := 0
    emergency_threshold := false
    error_rate := 0 }

/-- Enhanced metrics with the emergency threshold breached
(estimated latency 0.6 > 0.5). -/
def mEm : Autoscaler.EnhancedMetrics :=
  { queue_size := 0
    queue_utilization := 0
    avg_processing_time := 6/10
    request_rate := 0
    queue_wait_time := 0
    estimated_total_latency := 6/10
    latency_pressure := 3/2
    queue_pressure := 0
    emergency_threshold := true
    error_rate := 0 }

/-- Calm enhanced metrics: request rate 0.5/s, processing time 0.1s,
estimated latency 0.15s, so latency pressure 0.375 < 0.5, queue pressure
0 < 0.3 and error rate 0 < 1 — the conditions the scale-down branch
requires. -/
def mCalm : Autoscaler.EnhancedMetrics :=
  { queue_size := 0
    queue_utilization := 0
    avg_processing_time := 1/10
    request_rate := 1/2
    queue_wait_time := 0
    estimated_total_latency := 3/20
    latency_pressure := 3/8
    queue_pressure := 0
    emergency_threshold := false
    error_rate := 0 }

/-- A prediction oracle forecasting the same calm load (rate 0.5/s,
latency 0.1s), so the predictive method also proposes few replicas. -/
def predCalm : Option (List ℚ × List ℚ) := some ([1/2], [1/10])

/-- A dispatcher state whose request queue is at its 200-item capacity
(as after 200 non-cached submissions with no worker progress). -/
def fullQueueDispatcher : Dispatcher :=
  { initDispatcher with
    request_queue :=
      List.replicate 200
        { request_id := 0, filename := 0, image_data := 0, timestamp := 0 } }

/-- Event trace for the queue-time accounting: two distinct non-cached
submissions at time 0, then one worker round that dequeues the first
of them at time 1/250 (queue residence 0.004 s) and completes it. -/
def evs8 : List Event :=
  [Event.submit 0 0 0,
   Event.submit 1 1 0,
   Event.work (BackendResponse.ok 42) (1/250) (1/10) (1/5)]

/-! ## Helper lemmas -/

theorem dictLookup_dictUpdate_self {α β : Type} [DecidableEq α]
    (k : α) (f : β → β) (l : List (α × β)) :
    dictLookup k (dictUpdate k f l) = (dictLookup k l).map f := by
  induction l with
  | nil => rfl
  | cons p rest ih =>
      simp only [dictUpdate, List.map_cons] at ih ⊢
      by_cases hp : p.1 = k
      · rw [if_pos hp]
        simp [dictLookup, hp]
      · rw [if_neg hp]
        simp [dictLookup, hp, ih]

theorem dictUpdate_map_fst {α β : Type} [DecidableEq α]
    (k : α) (f : β → β) (l : List (α × β)) :
    (dictUpdate k f l).map Prod.fst = l.map Prod.fst := by
  induction l with
  | nil => rfl
  | cons p rest ih =>
      simp only [dictUpdate, List.map_cons] at ih ⊢
      by_cases hp : p.1 = k
      · rw [if_pos hp]
        simp [ih]
      · rw [if_neg hp]
        simp [ih]

theorem dictUpdate_length {α β : Type} [DecidableEq α]
    (k : α) (f : β → β) (l : List (α × β)) :
    (dictUpdate k f l).length = l.length := by
  simp [dictUpdate]

theorem dictLookup_append_of_none {α β : Type} [DecidableEq α]
    {k : α} {l : List (α × β)} (h : dictLookup k l = none) (v : β) :
    dictLookup k (l ++ [(k, v)]) = some v := by
  induction l with
  | nil => simp [dictLookup]
  | cons p rest ih =>
      by_cases hp : p.1 = k
      · simp [dictLookup, hp] at h
      · simp [dictLookup, hp] at h ⊢
        exact ih h

theorem dictLookup_append_self_isSome {α β : Type} [DecidableEq α]
    (k : α) (v : β) (l : List (α × β)) :
    (dictLookup k (l ++ [(k, v)])).isSome = true := by
  induction l with
  | nil => simp [dictLookup]
  | cons p rest ih =>
      by_cases hp : p.1 = k
      · simp [dictLookup, hp]
      · simp [dictLookup, hp]
        exact ih

theorem evictOldest_of_lt {m : ℕ} {l : List (ImageHash × CacheEntry)}
    (h : l.length < m) : evictOldest m l = l := by
  cases l with
  | nil => rfl
  | cons x xs =>
      simp only [List.length_cons] at h
      have hn : ¬ (m ≤ xs.length + 1) := by omega
      simp [evictOldest, hn]

theorem pyRound_zero (n : ℕ) : pyRound 0 n = 0 := by
  norm_num [pyRound, roundHalfEven]

/-! ## Claim theorems -/

/-- C6: the cache evicts by least-recently-accessed order, with `get`
refreshing recency: with capacity 2, after put(A), put(B), get(A),
put(C) the store holds exactly A and C (in LRU-to-MRU order) and B has
been evicted. -/
theorem c6_lru_eviction :
    ((((((emptyCache 2).put 0 10 0).put 1 11 1).get 0).2.put 2 12 2).cache.map Prod.fst
        = [0, 2])
  ∧ dictLookup 1 (((((emptyCache 2).put 0 10 0).put 1 11 1).get 0).2.put 2 12 2).cache
      = none := by
  decide

/-- C7 counterexample: a `put` of an already-present key does NOT leave
every other cached entry in place.  With capacity 2 and the store holding
A (= key 0, LRU) and B (= key 1, MRU), `put(B)` first runs the eviction
loop — the store is at capacity, so A is evicted even though B is already
present — leaving the cache holding only B.  The claim says eviction
happens only when the key is absent, i.e. A should have survived. -/
theorem c7_counterexample :
    (((((emptyCache 2).put 0 10 0).put 1 11 1).put 1 12 2).cache.map Prod.fst = [1])
  ∧ dictLookup 0 ((((emptyCache 2).put 0 10 0).put 1 11 1).put 1 12 2).cache = none := by
  decide

/-- C7 (amended): a `put` of an already-present key overwrites that
entry's value in place — when the cache is strictly below capacity no
entry is evicted and every key keeps its exact position (in particular
the written key is NOT re-positioned to the most-recently-used end);
when the cache is at capacity the eviction loop still runs first even
though the key is present, so another entry can be evicted (see the
counterexample). -/
theorem c7_put_present (c : ImageCache) (h : ImageHash) (v : ℕ) (t : ℚ)
    (hmem : (dictLookup h c.cache).isSome = true)
    (hlt : c.cache.length < c.max_size) :
    ((c.put h v t).cache.map Prod.fst = c.cache.map Prod.fst)
  ∧ dictLookup h (c.put h v t).cache
      = some { result := v, cached_at := t, image_hash := h } := by
  obtain ⟨e, he⟩ := Option.isSome_iff_exists.mp hmem
  have hput : (c.put h v t).cache
      = dictUpdate h
          (fun _ => ({ result := v, cached_at := t, image_hash := h } : CacheEntry))
          c.cache := by
    simp only [ImageCache.put, evictOldest_of_lt hlt, he]
  rw [hput]
  exact ⟨dictUpdate_map_fst _ _ _, by rw [dictLookup_dictUpdate_self, he]; rfl⟩

/-- Witness for `c7_put_present`: a concrete below-capacity cache holding
key 0; overwriting key 0 keeps the key layout and stores the new value. -/
theorem c7_put_present_witness :
    ((((emptyCache 2).put 0 10 0).put 0 11 1).cache.map Prod.fst
        = ((emptyCache 2).put 0 10 0).cache.map Prod.fst)
  ∧ dictLookup 0 (((emptyCache 2).put 0 10 0).put 0 11 1).cache
      = some { result := 11, cached_at := 1, image_hash := 0 } :=
  c7_put_present ((emptyCache 2).put 0 10 0) 0 11 1 (by decide) (by decide)

/-- C4: the autoscaler's metric-derivation step never succeeds on a real
`get_status` snapshot — the claim says it succeeds and computes the
Little's-Law quantities.  `_calculate_enhanced_metrics` reads
`raw_metrics['queue_metrics']['queue_size']`, but `get_status` emits
`queue_size` only at the top level of the snapshot, not inside the
`queue_metrics` sub-dict, so the very first lookup raises `KeyError`
for every dispatcher state and every clock reading (and
`get_enhanced_metrics` then swallows the exception and returns `None`,
making the autoscaler skip the cycle).  Additionally,
`performance_metrics` carries no `request_rate` key, so the
`.get('request_rate', 0)` default would make `request_rate` 0 on every
snapshot even if the first lookup were fixed. -/
theorem c4_enhanced_metrics_keyerror (d : Dispatcher) (now : ℚ) :
    Autoscaler.calculate_enhanced_metrics (d.get_status now)
      = Except.error MetricKey.queue_size := rfl

/-- C9: every derived rate of the status snapshot and the cache stats is
defined as 0 when its denominator is not positive: avg_processing_time
(denominator successful_requests), avg_queue_time and
processing_error_rate (denominator queued_requests = total_requests −
cache hits), error_rate (denominator total_requests), throughput
(denominator uptime) and the cache hit_rate (denominator hits+misses);
in the shallow embedding no division error can arise and each guard
yields 0. -/
theorem c9_zero_denominators (d : Dispatcher) (now : ℚ) :
    (d.successful_requests = 0 →
      (d.get_status now).performance_metrics.avg_processing_time = 0)
  ∧ ((d.total_requests : ℤ) - (d.cache.hits : ℤ) ≤ 0 →
      (d.get_status now).performance_metrics.avg_queue_time = 0)
  ∧ (d.total_requests = 0 → (d.get_status now).health_metrics.error_rate = 0)
  ∧ ((d.total_requests : ℤ) - (d.cache.hits : ℤ) ≤ 0 →
      (d.get_status now).health_metrics.processing_error_rate = 0)
  ∧ (now - d.start_time ≤ 0 → (d.get_status now).performance_metrics.throughput = 0)
  ∧ (d.cache.hits + d.cache.misses = 0 →
      (d.get_status now).cache_metrics.cache_hit_rate = 0) := by
  refine ⟨?_, ?_, ?_, ?_, ?_, ?_⟩
  · intro h
    simp [Dispatcher.get_status, h, pyRound_zero]
  · intro h
    have hn : ¬ ((d.total_requests : ℤ) - (d.cache.hits : ℤ) > 0) := by omega
    simp [Dispatcher.get_status, ImageCache.get_stats, hn, pyRound_zero]
  · intro h
    simp [Dispatcher.get_status, h, pyRound_zero]
  · intro h
    have hn : ¬ ((d.total_requests : ℤ) - (d.cache.hits : ℤ) > 0) := by omega
    simp [Dispatcher.get_status, ImageCache.get_stats, hn, pyRound_zero]
  · intro h
    have hn : ¬ (now - d.start_time > 0) := not_lt.mpr h
    simp [Dispatcher.get_status, hn, pyRound_zero]
  · intro h
    simp [Dispatcher.get_status, ImageCache.get_stats, h, pyRound_zero]

/-- Witness for `c9_zero_denominators`: the freshly constructed
dispatcher at time 0 has zero total requests and every derived rate of
its snapshot is 0. -/
theorem c9_zero_denominators_witness :
    ((initDispatcher.get_status 0).performance_metrics.avg_processing_time = 0)
  ∧ ((initDispatcher.get_status 0).performance_metrics.avg_queue_time = 0)
  ∧ ((initDispatcher.get_status 0).health_metrics.error_rate = 0)
  ∧ ((initDispatcher.get_status 0).health_metrics.processing_error_rate = 0)
  ∧ ((initDispatcher.get_status 0).performance_metrics.throughput = 0)
  ∧ ((initDispatcher.get_status 0).cache_metrics.cache_hit_rate = 0) :=
  ⟨(c9_zero_denominators initDispatcher 0).1 rfl,
   (c9_zero_denominators initDispatcher 0).2.1 (by decide),
   (c9_zero_denominators initDispatcher 0).2.2.1 rfl,
   (c9_zero_denominators initDispatcher 0).2.2.2.1 (by decide),
   (c9_zero_denominators initDispatcher 0).2.2.2.2.1 (by norm_num [initDispatcher]),
   (c9_zero_denominators initDispatcher 0).2.2.2.2.2 rfl⟩

/-- C3: the queue-full path of `queue_request` marks the request Failed
with the queue-full error, but it does NOT increment the distinguishable
`queue_full_errors` counter — the counter is initialised in `__init__`
(with the comment that it separates queue-full from processing errors)
and is never incremented anywhere, so `get_status`'s `processing_errors`
(= failed_requests − queue_full_errors) absorbs the queue-full failure
instead of counting only backend failures: after one rejected
submission it equals failed_requests + 1 − the old counter value. -/
theorem c3_queue_full_not_attributed
    (d : Dispatcher) (image_data filename : ℕ) (now : ℚ)
    (hmiss : dictLookup image_data d.cache.cache = none)
    (hfull : queueMaxsize ≤ d.request_queue.length)
    (hfresh : dictLookup d.next_request_id d.results = none) :
    ((d.queue_request image_data filename now).2.queue_full_errors = d.queue_full_errors)
  ∧ ((d.queue_request image_data filename now).2.failed_requests = d.failed_requests + 1)
  ∧ (∃ r, dictLookup (d.queue_request image_data filename now).1
            (d.queue_request image_data filename now).2.results = some r
          ∧ r.status = ReqStatus.failed ∧ r.error = some ReqError.queueFull)
  ∧ (((d.queue_request image_data filename now).2.get_status now).health_metrics.processing_errors
        = (d.failed_requests : ℤ) + 1 - (d.queue_full_errors : ℤ)) := by
  have hnotlt : ¬ (d.request_queue.length < queueMaxsize) := by omega
  simp only [Dispatcher.queue_request, ImageCache.get, hmiss, hnotlt, if_false,
    Dispatcher.get_status, ImageCache.get_stats]
  refine ⟨trivial, trivial, ?_, ?_⟩
  · simp only [dictLookup_dictUpdate_self, dictLookup_append_of_none hfresh]
    exact ⟨_, rfl, rfl, rfl⟩
  · push_cast
    ring

/-- Witness for `c3_queue_full_not_attributed`: a dispatcher whose queue
is at its 200-item capacity receives one non-cached submission; the
submission is marked failed with the queue-full error, yet
`queue_full_errors` stays 0 and `processing_errors` counts the failure. -/
theorem c3_queue_full_witness :
    ((fullQueueDispatcher.queue_request 0 0 0).2.queue_full_errors
        = fullQueueDispatcher.queue_full_errors)
  ∧ ((fullQueueDispatcher.queue_request 0 0 0).2.failed_requests
        = fullQueueDispatcher.failed_requests + 1)
  ∧ (∃ r, dictLookup (fullQueueDispatcher.queue_request 0 0 0).1
            (fullQueueDispatcher.queue_request 0 0 0).2.results = some r
          ∧ r.status = ReqStatus.failed ∧ r.error = some ReqError.queueFull)
  ∧ (((fullQueueDispatcher.queue_request 0 0 0).2.get_status 0).health_metrics.processing_errors
        = (fullQueueDispatcher.failed_requests : ℤ) + 1
            - (fullQueueDispatcher.queue_full_errors : ℤ)) :=
  c3_queue_full_not_attributed fullQueueDispatcher 0 0 0 rfl
    (by simp only [fullQueueDispatcher, queueMaxsize, List.length_replicate]
        exact le_refl 200) rfl

/-! ### Ledger bookkeeping lemmas (for the submission-count invariant) -/

theorem queue_request_fst (d : Dispatcher) (i f : ℕ) (n : ℚ) :
    (d.queue_request i f n).1 = d.next_request_id := by
  unfold Dispatcher.queue_request ImageCache.get
  cases hl : dictLookup i d.cache.cache
  · simp only [hl]
    split <;> rfl
  · simp only [hl]

theorem queue_request_results_length (d : Dispatcher) (i f : ℕ) (n : ℚ) :
    (d.queue_request i f n).2.results.length = d.results.length + 1 := by
  unfold Dispatcher.queue_request ImageCache.get
  cases hl : dictLookup i d.cache.cache
  · simp only [hl]
    split <;> simp [dictUpdate_length]
  · simp only [hl]
    simp

theorem queue_request_keys (d : Dispatcher) (i f : ℕ) (n : ℚ) :
    (d.queue_request i f n).2.results.map Prod.fst
      = d.results.map Prod.fst ++ [d.next_request_id] := by
  unfold Dispatcher.queue_request ImageCache.get
  cases hl : dictLookup i d.cache.cache
  · simp only [hl]
    split <;> simp [dictUpdate_map_fst]
  · simp only [hl]
    simp

theorem queue_request_next_id (d : Dispatcher) (i f : ℕ) (n : ℚ) :
    (d.queue_request i f n).2.next_request_id = d.next_request_id + 1 := by
  unfold Dispatcher.queue_request ImageCache.get
  cases hl : dictLookup i d.cache.cache
  · simp only [hl]
    split <;> rfl
  · simp only [hl]

theorem queue_request_lookup_isSome (d : Dispatcher) (i f : ℕ) (n : ℚ) :
    (dictLookup (d.queue_request i f n).1 (d.queue_request i f n).2.results).isSome
      = true := by
  rw [queue_request_fst]
  unfold Dispatcher.queue_request ImageCache.get
  cases hl : dictLookup i d.cache.cache
  · simp only [hl]
    split
    · exact dictLookup_append_self_isSome ..
    · rw [dictLookup_dictUpdate_self]
      obtain ⟨v, hv⟩ := Option.isSome_iff_exists.mp
        (dictLookup_append_self_isSome d.next_request_id
          { status := ReqStatus.queued, filename := f, from_cache := false,
            queued_at := n, completed_at := none, result := none, error := none,
            processing_time := none, cached_at := none } d.results)
      rw [hv]
      rfl
  · simp only [hl]
    exact dictLookup_append_self_isSome ..

theorem forward_request_results_length (d : Dispatcher) (it : QueueItem)
    (resp : BackendResponse) (a b c : ℚ) :
    (d.forward_request it resp a b c).results.length = d.results.length := by
  unfold Dispatcher.forward_request
  cases resp <;> simp [dictUpdate_length]

theorem forward_request_keys (d : Dispatcher) (it : QueueItem)
    (resp : BackendResponse) (a b c : ℚ) :
    (d.forward_request it resp a b c).results.map Prod.fst
      = d.results.map Prod.fst := by
  unfold Dispatcher.forward_request
  cases resp <;> simp [dictUpdate_map_fst]

theorem worker_step_results_length (d : Dispatcher) (resp : BackendResponse)
    (a b c : ℚ) :
    (d.worker_step resp a b c).results.length = d.results.length := by
  unfold Dispatcher.worker_step
  cases hq : d.request_queue
  · rfl
  · simp [forward_request_results_length]

theorem worker_step_keys (d : Dispatcher) (resp : BackendResponse) (a b c : ℚ) :
    (d.worker_step resp a b c).results.map Prod.fst = d.results.map Prod.fst := by
  unfold Dispatcher.worker_step
  cases hq : d.request_queue
  · rfl
  · simp [forward_request_keys]

theorem worker_step_next_id (d : Dispatcher) (resp : BackendResponse) (a b c : ℚ) :
    (d.worker_step resp a b c).next_request_id = d.next_request_id := by
  unfold Dispatcher.worker_step
  cases hq : d.request_queue
  · rfl
  · unfold Dispatcher.forward_request
    cases resp <;> rfl

/-- Every ledger key was drawn from the fresh-id counter, so all keys are
below the counter's current value. -/
def keysBounded (d : Dispatcher) : Prop :=
  ∀ k ∈ d.results.map Prod.fst, k < d.next_request_id

theorem step_keysBounded {d : Dispatcher} (hb : keysBounded d) (e : Event) :
    keysBounded (d.step e) := by
  cases e with
  | submit i f n =>
      intro k hk
      rw [Dispatcher.step] at hk ⊢
      rw [queue_request_keys] at hk
      rw [queue_request_next_id]
      rcases List.mem_append.mp hk with h | h
      · exact Nat.lt_succ_of_lt (hb k h)
      · simp at h
        omega
  | work resp a b c =>
      intro k hk
      rw [Dispatcher.step] at hk ⊢
      rw [worker_step_keys] at hk
      rw [worker_step_next_id]
      exact hb k hk

theorem step_nodup {d : Dispatcher} (hb : keysBounded d)
    (hn : (d.results.map Prod.fst).Nodup) (e : Event) :
    ((d.step e).results.map Prod.fst).Nodup := by
  cases e with
  | submit i f n =>
      rw [Dispatcher.step, queue_request_keys]
      rw [List.nodup_append]
      refine ⟨hn, List.nodup_singleton _, ?_⟩
      intro k hk hk'
      simp at hk'
      subst hk'
      exact absurd (hb _ hk) (lt_irrefl _)
  | work resp a b c =>
      rw [Dispatcher.step, worker_step_keys]
      exact hn

theorem run_ledger_invariant : ∀ (evs : List Event) (d : Dispatcher),
    keysBounded d → (d.results.map Prod.fst).Nodup →
    keysBounded (d.run evs) ∧ ((d.run evs).results.map Prod.fst).Nodup := by
  intro evs
  induction evs with
  | nil => exact fun d hb hn => ⟨hb, hn⟩
  | cons e rest ih =>
      intro d hb hn
      exact ih (d.step e) (step_keysBounded hb e) (step_nodup hb hn e)

theorem run_results_length : ∀ (evs : List Event) (d : Dispatcher),
    (d.run evs).results.length = d.results.length + submitCount evs := by
  intro evs
  induction evs with
  | nil => intro d; rfl
  | cons e rest ih =>
      intro d
      show ((d.step e).run rest).results.length = _
      rw [ih]
      cases e with
      | submit i f n =>
          show ((d.queue_request i f n).2).results.length + _ = _
          rw [queue_request_results_length, submitCount]
          omega
      | work resp a b c =>
          show (d.worker_step resp a b c).results.length + _ = _
          rw [worker_step_results_length, submitCount]

/-- C5: every `queue_request` call — cache hit, successful enqueue or
queue-full rejection alike — creates exactly one ledger entry under the
freshly drawn request identifier and returns that identifier, so after
any event sequence from a fresh dispatcher the ledger holds exactly one
entry per submission (`count(ledger) == count(submissions)`), with
pairwise-distinct identifiers; no request is silently dropped. -/
theorem c5_ledger_one_entry_per_submission (evs : List Event) :
    ((initDispatcher.run evs).results.length = submitCount evs)
  ∧ ((initDispatcher.run evs).results.map Prod.fst).Nodup
  ∧ (∀ (d : Dispatcher) (image_data filename : ℕ) (now : ℚ),
      ((d.queue_request image_data filename now).1 = d.next_request_id)
    ∧ ((d.queue_request image_data filename now).2.results.length
          = d.results.length + 1)
    ∧ ((dictLookup (d.queue_request image_data filename now).1
          (d.queue_request image_data filename now).2.results).isSome = true)) := by
  refine ⟨?_, ?_, ?_⟩
  · rw [run_results_length]
    simp [initDispatcher]
  · exact (run_ledger_invariant evs initDispatcher (by intro k hk; simp [initDispatcher] at hk)
      (by simp [initDispatcher])).2
  · intro d i f n
    exact ⟨queue_request_fst d i f n, queue_request_results_length d i f n,
      queue_request_lookup_isSome d i f n⟩

/-! ### Counter-tracking lemmas (for the queue-time denominator) -/

theorem put_hits (c : ImageCache) (i : ImageHash) (r : ℕ) (t : ℚ) :
    (c.put i r t).hits = c.hits := by
  unfold ImageCache.put
  cases hl : dictLookup i (evictOldest c.max_size c.cache) <;> simp [hl]

theorem queue_request_total (d : Dispatcher) (i f : ℕ) (n : ℚ) :
    (d.queue_request i f n).2.total_requests = d.total_requests + 1 := by
  unfold Dispatcher.queue_request ImageCache.get
  cases hl : dictLookup i d.cache.cache
  · simp only [hl]
    split <;> rfl
  · simp only [hl]

theorem queue_request_hits (d : Dispatcher) (i f : ℕ) (n : ℚ) :
    (d.queue_request i f n).2.cache.hits
      = d.cache.hits + (if (dictLookup i d.cache.cache).isSome then 1 else 0) := by
  unfold Dispatcher.queue_request ImageCache.get
  cases hl : dictLookup i d.cache.cache
  · simp only [hl]
    split <;> simp
  · simp only [hl]
    simp

theorem forward_request_total_hits (d : Dispatcher) (it : QueueItem)
    (resp : BackendResponse) (a b c : ℚ) :
    ((d.forward_request it resp a b c).total_requests = d.total_requests)
  ∧ ((d.forward_request it resp a b c).cache.hits = d.cache.hits) := by
  unfold Dispatcher.forward_request
  cases resp <;> simp [put_hits]

theorem worker_step_total_hits (d : Dispatcher) (resp : BackendResponse) (a b c : ℚ) :
    ((d.worker_step resp a b c).total_requests = d.total_requests)
  ∧ ((d.worker_step resp a b c).cache.hits = d.cache.hits) := by
  unfold Dispatcher.worker_step
  cases hq : d.request_queue
  · exact ⟨rfl, rfl⟩
  · exact forward_request_total_hits ..

/-- Along any event sequence, `total_requests − cache.hits` grows by
exactly one per cache-missing submission: worker rounds touch neither
counter and cache-hit submissions bump both. -/
theorem run_queued_count : ∀ (evs : List Event) (d : Dispatcher),
    ((d.run evs).total_requests : ℤ) - ((d.run evs).cache.hits : ℤ)
      = ((d.total_requests : ℤ) - (d.cache.hits : ℤ))
          + (nonCachedSubmitCount d evs : ℤ) := by
  intro evs
  induction evs with
  | nil =>
      intro d
      simp [Dispatcher.run, nonCachedSubmitCount]
  | cons e rest ih =>
      intro d
      rw [show d.run (e :: rest) = (d.step e).run rest from rfl, ih]
      simp only [nonCachedSubmitCount]
      cases e with
      | submit i f n =>
          have h1 := queue_request_total d i f n
          have h2 := queue_request_hits d i f n
          simp only [Dispatcher.step] at h1 h2 ⊢
          rw [h1, h2]
          cases hl : (dictLookup i d.cache.cache).isSome <;>
            (simp [hl]; try ring)
      | work resp a b c =>
          have h := worker_step_total_hits d resp a b c
          simp only [Dispatcher.step] at h ⊢
          rw [h.1, h.2]
          push_cast
          ring

/-- C8 (amended): the `avg_queue_time` denominator exposed by
`get_status` as `queued_requests` equals `total_requests − cache hits`,
i.e. the number of non-cached submissions so far — cache hits are
excluded, but queue-full rejections and requests still waiting in the
queue are included; it does not count only the requests actually
dequeued by a worker.  `avg_queue_time` is the accumulated queue
residence time divided by that count (rounded to 3 decimals; 0 when the
count is 0). -/
theorem c8_queue_time_denominator (evs : List Event) (now : ℚ) :
    (((initDispatcher.run evs).get_status now).queued_requests
        = (nonCachedSubmitCount initDispatcher evs : ℤ))
  ∧ (((initDispatcher.run evs).get_status now).performance_metrics.avg_queue_time
        = (if 0 < nonCachedSubmitCount initDispatcher evs then
             pyRound ((initDispatcher.run evs).total_queue_time
               / (nonCachedSubmitCount initDispatcher evs : ℚ)) 3
           else 0)) := by
  have hq := run_queued_count evs initDispatcher
  rw [show (initDispatcher.total_requests : ℤ) - (initDispatcher.cache.hits : ℤ) = 0
      from rfl, zero_add] at hq
  constructor
  · simp only [Dispatcher.get_status, ImageCache.get_stats]
    exact hq
  · simp only [Dispatcher.get_status, ImageCache.get_stats]
    rw [hq]
    by_cases hpos : 0 < nonCachedSubmitCount initDispatcher evs
    · rw [if_pos (by exact_mod_cast hpos), if_pos hpos]
      norm_num
    · rw [if_neg (by exact_mod_cast hpos), if_neg hpos]
      exact pyRound_zero 3

/-- The dispatcher state reached by the trace `evs8`: two non-cached
submissions entered the queue, the worker dequeued and completed the
first (queue residence 1/250 s, processing 1/10 s), the second is still
waiting. -/
theorem run_evs8 :
    initDispatcher.run evs8 =
      { cache := { max_size := 1000
                   cache := [(0, { result := 42, cached_at := 1/5, image_hash := 0 })]
                   hits := 0
                   misses := 2 }
        request_queue := [{ request_id := 1, filename := 1, image_data := 1, timestamp := 0 }]
        results :=
          [(0, { status := ReqStatus.completed, filename := 0, from_cache := false
                 queued_at := 0, completed_at := some (1/5), result := some 42
                 error := none, processing_time := some (1/10), cached_at := none }),
           (1, { status := ReqStatus.queued, filename := 1, from_cache := false
                 queued_at := 0, completed_at := none, result := none
                 error := none, processing_time := none, cached_at := none })]
        total_requests := 2
        cache_hits := 0
        successful_requests := 1
        failed_requests := 0
        queue_full_errors := 0
        start_time := 0
        peak_queue_size := 1
        total_processing_time := 1/10
        total_queue_time := 1/250
        last_request_time := some 0
        queue_capacity := 200
        next_request_id := 2 } := by
  show Dispatcher.step (Dispatcher.step (Dispatcher.step initDispatcher
      (Event.submit 0 0 0)) (Event.submit 1 1 0))
      (Event.work (BackendResponse.ok 42) (1/250) (1/10) (1/5)) = _
  norm_num [Dispatcher.step, Dispatcher.queue_request, Dispatcher.worker_step,
    Dispatcher.forward_request, ImageCache.get, ImageCache.put, evictOldest,
    dictLookup, dictUpdate, initDispatcher, emptyCache, queueMaxsize]

/-- C8 counterexample: the claim says the `avg_queue_time` denominator
counts exactly the requests dequeued by a worker.  After the trace
`evs8` exactly one request was dequeued (one remains in the queue), and
the accumulated queue residence time is 1/250; the claim therefore
demands avg_queue_time = (1/250)/1 = 0.004, but the snapshot reports
`queued_requests = 2` and avg_queue_time = (1/250)/2 = 0.002. -/
theorem c8_counterexample :
    (((initDispatcher.run evs8).get_status 1).queued_requests = 2)
  ∧ ((initDispatcher.run evs8).request_queue.length = 1)
  ∧ ((initDispatcher.run evs8).total_queue_time = 1/250)
  ∧ (((initDispatcher.run evs8).get_status 1).performance_metrics.avg_queue_time = 1/500)
  ∧ ((1/500 : ℚ) ≠ pyRound ((1/250 : ℚ) / 1) 3) := by
  rw [run_evs8]
  refine ⟨rfl, rfl, rfl, ?_, ?_⟩
  · norm_num [Dispatcher.get_status, ImageCache.get_stats, pyRound, roundHalfEven,
      Int.floor_eq_iff]
  · norm_num [pyRound, roundHalfEven, Int.floor_eq_iff]

/-! ### Autoscaler candidate bounds -/

theorem little_law_ge (rr apt : ℚ) (c : ℕ) :
    Autoscaler.min_replicas
      ≤ Autoscaler.calculate_required_replicas_little_law rr apt c := by
  unfold Autoscaler.calculate_required_replicas_little_law
  split
  · exact Nat.le_max_left _ _
  · dsimp only
    simp only [Autoscaler.min_replicas, Autoscaler.max_replicas]
    omega

theorem little_law_le (rr apt : ℚ) (c : ℕ) :
    Autoscaler.calculate_required_replicas_little_law rr apt c
      ≤ max Autoscaler.max_replicas c := by
  unfold Autoscaler.calculate_required_replicas_little_law
  split
  · simp only [Autoscaler.min_replicas, Autoscaler.max_replicas]
    omega
  · dsimp only
    simp only [Autoscaler.min_replicas, Autoscaler.max_replicas]
    omega

theorem predictive_le (p : Option (List ℚ × List ℚ)) (c : ℕ) :
    Autoscaler.calculate_predictive_replicas p c ≤ max Autoscaler.max_replicas c := by
  unfold Autoscaler.calculate_predictive_replicas
  cases p with
  | none => exact Nat.le_max_right _ _
  | some pr =>
      obtain ⟨rs, ls⟩ := pr
      dsimp only
      split_ifs
      all_goals first
        | exact little_law_le _ _ _
        | exact Nat.le_max_right _ _

theorem reactive_ge (m : Autoscaler.EnhancedMetrics) (c : ℕ) :
    c ≤ Autoscaler.reactive_replicas m c := by
  unfold Autoscaler.reactive_replicas
  dsimp only
  split_ifs <;> omega

theorem reactive_le (m : Autoscaler.EnhancedMetrics) (c : ℕ) :
    Autoscaler.reactive_replicas m c
      ≤ max (max (3 * c / 2) (c + Autoscaler.min_scale_step)) c := by
  unfold Autoscaler.reactive_replicas
  dsimp only
  split_ifs <;> simp only [Autoscaler.min_scale_step] <;> omega

theorem candidate_max_ge (m : Autoscaler.EnhancedMetrics)
    (p : Option (List ℚ × List ℚ)) (c : ℕ) :
    c ≤ Autoscaler.candidate_max m p c :=
  le_trans (reactive_ge m c)
    (le_trans (Nat.le_max_right _ _) (Nat.le_max_right _ _))

theorem candidate_max_le (m : Autoscaler.EnhancedMetrics)
    (p : Option (List ℚ × List ℚ)) (c : ℕ) :
    Autoscaler.candidate_max m p c
      ≤ max (max (max Autoscaler.max_replicas (3 * c / 2))
          (c + Autoscaler.min_scale_step)) c := by
  have h1 := little_law_le m.request_rate m.avg_processing_time c
  have h2 := predictive_le p c
  have h3 := reactive_le m c
  unfold Autoscaler.candidate_max
  omega

theorem little_law_le_candidate (m : Autoscaler.EnhancedMetrics)
    (p : Option (List ℚ × List ℚ)) (c : ℕ) :
    Autoscaler.calculate_required_replicas_little_law
        m.request_rate m.avg_processing_time c
      ≤ Autoscaler.candidate_max m p c := by
  unfold Autoscaler.candidate_max
  exact Nat.le_max_left _ _

/-- Case analysis of `calculate_optimal_replicas`: the decided count is
the emergency value, the candidate maximum, the scale-down target, or
the held current count (the latter two only when the candidate maximum
is below current). -/
theorem optimal_cases (m : Autoscaler.EnhancedMetrics)
    (p : Option (List ℚ × List ℚ)) (c : ℕ) :
    (m.emergency_threshold = true ∧
      (Autoscaler.calculate_optimal_replicas m p c).1
        = min (2 * c) Autoscaler.max_replicas)
  ∨ (m.emergency_threshold = false ∧
      ((Autoscaler.calculate_optimal_replicas m p c).1
          = Autoscaler.candidate_max m p c
       ∨ (Autoscaler.candidate_max m p c < c ∧
           ((Autoscaler.calculate_optimal_replicas m p c).1
               = max (c - Autoscaler.min_scale_step) Autoscaler.min_replicas
            ∨ (Autoscaler.calculate_optimal_replicas m p c).1 = c)))) := by
  unfold Autoscaler.calculate_optimal_replicas
  cases hm : m.emergency_threshold
  · rw [if_neg (by decide)]
    right
    refine ⟨rfl, ?_⟩
    dsimp only
    split_ifs with h1 h2
    · exact Or.inr ⟨h1, Or.inl rfl⟩
    · exact Or.inr ⟨h1, Or.inr rfl⟩
    · exact Or.inl rfl
    · exact Or.inl rfl
    · exact Or.inl rfl
  · rw [if_pos rfl]
    exact Or.inl ⟨rfl, rfl⟩

/-- C1 (amended): the decided replica count is not universally clamped
into `[min_replicas, max_replicas]`.  What does hold: (i) every decision
is bounded by `max(max_replicas, ⌊1.5·current⌋, current+min_scale_step,
current)` — the reactive proposals are the only way past `max_replicas`;
(ii) every non-emergency decision is at least `min_replicas`; (iii) the
emergency candidate `min(2·current, max_replicas)` never exceeds
`max_replicas` (though it can fall below `min_replicas` when
current ≤ 1).  The final scale-up candidate itself is not clamped — see
the counterexample, where it reaches 150 > max_replicas = 100. -/
theorem c1_bounds (m : Autoscaler.EnhancedMetrics)
    (p : Option (List ℚ × List ℚ)) (c : ℕ) :
    ((Autoscaler.calculate_optimal_replicas m p c).1
        ≤ max (max (max Autoscaler.max_replicas (3 * c / 2))
            (c + Autoscaler.min_scale_step)) c)
  ∧ (m.emergency_threshold = false →
      Autoscaler.min_replicas ≤ (Autoscaler.calculate_optimal_replicas m p c).1)
  ∧ (m.emergency_threshold = true →
      (Autoscaler.calculate_optimal_replicas m p c).1 ≤ Autoscaler.max_replicas) := by
  have hcase := optimal_cases m p c
  have hll := little_law_ge m.request_rate m.avg_processing_time c
  have hllc := little_law_le_candidate m p c
  have hcle := candidate_max_le m p c
  refine ⟨?_, ?_, ?_⟩
  · rcases hcase with ⟨_, hv⟩ | ⟨_, hv | ⟨hlt, hv | hv⟩⟩ <;>
      (rw [hv]
       simp only [Autoscaler.min_replicas, Autoscaler.max_replicas,
         Autoscaler.min_scale_step] at *
       omega)
  · intro hf
    rcases hcase with ⟨ht, _⟩ | ⟨_, hv | ⟨hlt, hv | hv⟩⟩
    · rw [hf] at ht
      cases ht
    all_goals
      rw [hv]
      simp only [Autoscaler.min_replicas, Autoscaler.max_replicas,
        Autoscaler.min_scale_step] at *
      omega
  · intro ht
    rcases hcase with ⟨_, hv⟩ | ⟨hf, _⟩
    · rw [hv]
      simp only [Autoscaler.max_replicas]
      omega
    · rw [ht] at hf
      cases hf

/-- Witness for `c1_bounds`: at the metrics `m0` (no emergency) the
decision respects the `min_replicas` floor, and at the emergency metrics
`mEm` it respects the `max_replicas` cap. -/
theorem c1_bounds_witness :
    (Autoscaler.min_replicas ≤ (Autoscaler.calculate_optimal_replicas m0 none 100).1)
  ∧ ((Autoscaler.calculate_optimal_replicas mEm none 100).1 ≤ Autoscaler.max_replicas) :=
  ⟨(c1_bounds m0 none 100).2.1 rfl, (c1_bounds mEm none 100).2.2 rfl⟩

/-- C1 counterexample: with current = 100 = max_replicas and the
(non-emergency) metrics `m0`, whose latency pressure 1.225 exceeds the
1.2 reactive threshold, the reactive proposal `int(current * 1.5)` = 150
wins the candidate maximum and is returned unclamped: the decided count
is 150 > max_replicas, refuting the claimed `[min, max]` bound and in
particular the claim that the final scale-up candidate never exceeds
max_replicas. -/
theorem c1_counterexample :
    ((Autoscaler.calculate_optimal_replicas m0 none 100).1 = 150)
  ∧ Autoscaler.max_replicas < 150 := by
  have hll : Autoscaler.calculate_required_replicas_little_law
      m0.request_rate m0.avg_processing_time 100 = 100 := by
    norm_num [Autoscaler.calculate_required_replicas_little_law, m0,
      Autoscaler.min_replicas]
  have hre : Autoscaler.reactive_replicas m0 100 = 150 := by
    norm_num [Autoscaler.reactive_replicas, m0, Autoscaler.min_scale_step]
  have hpr : Autoscaler.calculate_predictive_replicas none 100 = 100 := rfl
  have hcm : Autoscaler.candidate_max m0 none 100 = 150 := by
    unfold Autoscaler.candidate_max
    rw [hll, hre, hpr]
    decide
  constructor
  · unfold Autoscaler.calculate_optimal_replicas
    rw [if_neg (by decide)]
    dsimp only
    rw [hcm, hll, hpr]
    norm_num
  · decide

/-! ### The autoscaling loop has no cooldown -/

theorem desired_m0_at_3 : Autoscaler.desired_replicas m0 none 3 = 4 := by
  have hll : Autoscaler.calculate_required_replicas_little_law
      m0.request_rate m0.avg_processing_time 3 = 3 := by
    norm_num [Autoscaler.calculate_required_replicas_little_law, m0,
      Autoscaler.min_replicas]
  have hre : Autoscaler.reactive_replicas m0 3 = 4 := by
    norm_num [Autoscaler.reactive_replicas, m0, Autoscaler.min_scale_step]
  have hpr : Autoscaler.calculate_predictive_replicas none 3 = 3 := rfl
  have hcm : Autoscaler.candidate_max m0 none 3 = 4 := by
    unfold Autoscaler.candidate_max
    rw [hll, hre, hpr]
    decide
  unfold Autoscaler.desired_replicas Autoscaler.calculate_optimal_replicas
  rw [if_neg (by decide)]
  dsimp only
  rw [hcm, hll, hpr]
  norm_num

theorem desired_m0_at_4 : Autoscaler.desired_replicas m0 none 4 = 6 := by
  have hll : Autoscaler.calculate_required_replicas_little_law
      m0.request_rate m0.avg_processing_time 4 = 4 := by
    norm_num [Autoscaler.calculate_required_replicas_little_law, m0,
      Autoscaler.min_replicas]
  have hre : Autoscaler.reactive_replicas m0 4 = 6 := by
    norm_num [Autoscaler.reactive_replicas, m0, Autoscaler.min_scale_step]
  have hpr : Autoscaler.calculate_predictive_replicas none 4 = 4 := rfl
  have hcm : Autoscaler.candidate_max m0 none 4 = 6 := by
    unfold Autoscaler.candidate_max
    rw [hll, hre, hpr]
    decide
  unfold Autoscaler.desired_replicas Autoscaler.calculate_optimal_replicas
  rw [if_neg (by decide)]
  dsimp only
  rw [hcm, hll, hpr]
  norm_num

/-- C2 (amended): the `run` loop enforces no cooldown of any kind — on
every poll whose computed desired count differs from the current count
the scaling action is executed immediately, so two consecutive polls
(`check_interval` = 5 s apart, i.e. both inside any cooldown window)
each observing a qualifying scale-up condition execute two scaling
actions, not one. -/
theorem c2_no_cooldown (m1 m2 : Autoscaler.EnhancedMetrics)
    (p1 p2 : Option (List ℚ × List ℚ)) (c : ℕ)
    (h1 : Autoscaler.desired_replicas m1 p1 c ≠ c)
    (h2 : Autoscaler.desired_replicas m2 p2 (Autoscaler.desired_replicas m1 p1 c)
            ≠ Autoscaler.desired_replicas m1 p1 c) :
    Autoscaler.run_trace c [(some m1, p1), (some m2, p2)]
      = (Autoscaler.desired_replicas m2 p2 (Autoscaler.desired_replicas m1 p1 c), 2) := by
  simp [Autoscaler.run_trace, Autoscaler.run_iteration, h1, h2]

/-- Witness for `c2_no_cooldown`: from 3 replicas, two consecutive polls
both reading the scale-up metrics `m0` execute two scaling actions
(3 → 4 → 6). -/
theorem c2_no_cooldown_witness :
    Autoscaler.run_trace 3 [(some m0, none), (some m0, none)] = (6, 2) := by
  have h := c2_no_cooldown m0 m0 none none 3
    (by rw [desired_m0_at_3]; decide)
    (by rw [desired_m0_at_3, desired_m0_at_4]; decide)
  rw [desired_m0_at_3, desired_m0_at_4] at h
  exact h

/-- C2 counterexample: two qualifying scale-up conditions on consecutive
polls (5 s apart, hence within any per-direction cooldown window)
produce TWO scaling actions, not exactly one: there is no cooldown state
anywhere in the loop, so nothing suppresses the second action. -/
theorem c2_counterexample :
    (Autoscaler.run_trace 3 [(some m0, none), (some m0, none)] = (6, 2))
  ∧ (2 ≠ 1) := by
  refine ⟨?_, by decide⟩
  simp [Autoscaler.run_trace, Autoscaler.run_iteration, desired_m0_at_3, desired_m0_at_4]

/-- C10: the scale-down branch of `calculate_optimal_replicas` is dead
code.  The reactive candidate is initialised to `current_replicas` and
only ever raised, so the candidate maximum is always ≥ current and the
branch condition `max_replicas < current_replicas` (line 360) never
holds: no decision ever carries the scale-down (or mixed-signals)
reason, and in particular the claimed behaviour of the branch — target
`max(current − min_scale_step, min_replicas)` — is unreachable.
Concretely, with calm metrics (latency pressure 0.375 < 0.5, queue
pressure 0 < 0.3, error rate 0 < 1) and 10 replicas, the engine holds at
10 instead of stepping down. -/
theorem c10_scale_down_dead :
    (∀ (m : Autoscaler.EnhancedMetrics) (p : Option (List ℚ × List ℚ)) (c : ℕ),
        (c ≤ Autoscaler.candidate_max m p c)
      ∧ ((Autoscaler.calculate_optimal_replicas m p c).2
            ≠ Autoscaler.ScaleReason.safe_scale_down)
      ∧ ((Autoscaler.calculate_optimal_replicas m p c).2
            ≠ Autoscaler.ScaleReason.mixed_signals))
  ∧ (Autoscaler.calculate_optimal_replicas mCalm predCalm 10
      = (10, Autoscaler.ScaleReason.reactive_scaling)) := by
  constructor
  · intro m p c
    refine ⟨candidate_max_ge m p c, ?_, ?_⟩ <;>
    · unfold Autoscaler.calculate_optimal_replicas
      cases hm : m.emergency_threshold
      · rw [if_neg (by decide)]
        dsimp only
        rw [if_neg (Nat.not_lt.mpr (candidate_max_ge m p c))]
        split_ifs <;> simp
      · rw [if_pos rfl]
        simp
  · have hc1 : (⌈(39/500 : ℚ)⌉ : ℤ) = 1 := by norm_num [Int.ceil_eq_iff]
    have hc2 : (⌈(198/3125 : ℚ)⌉ : ℤ) = 1 := by norm_num [Int.ceil_eq_iff]
    have hll : Autoscaler.calculate_required_replicas_little_law
        mCalm.request_rate mCalm.avg_processing_time 10 = 3 := by
      norm_num [Autoscaler.calculate_required_replicas_little_law, mCalm,
        Autoscaler.min_replicas, Autoscaler.max_replicas,
        Autoscaler.target_latency, hc1]
      decide
    have hpr : Autoscaler.calculate_predictive_replicas predCalm 10 = 3 := by
      norm_num [Autoscaler.calculate_predictive_replicas, predCalm, listMax,
        Autoscaler.calculate_required_replicas_little_law,
        Autoscaler.pod_startup_time, Autoscaler.check_interval,
        Autoscaler.target_latency, Autoscaler.min_replicas,
        Autoscaler.max_replicas, hc2]
      decide
    have hre : Autoscaler.reactive_replicas mCalm 10 = 10 := by
      norm_num [Autoscaler.reactive_replicas, mCalm, Autoscaler.min_scale_step]
    have hcm : Autoscaler.candidate_max mCalm predCalm 10 = 10 := by
      unfold Autoscaler.candidate_max
      rw [hll, hpr, hre]
      decide
    unfold Autoscaler.calculate_optimal_replicas
    rw [if_neg (by decide)]
    dsimp only
    rw [hcm, hll, hpr]
    norm_num

